import Mathlib

/-!
Shallow embedding of the subscription-digest mailer
(`tools/send_subscription_emails.py`) and of the exercise-outcome endpoint
(`zeeguu/api/endpoints/exercises.py`), with theorems checking the
specification's claims about them.

Conventions of the embedding:
* timestamps are integers (seconds); `datetime.timedelta(days=1)` is `oneDay`;
* Python's insertion-ordered `dict` is an association list with
  insert-or-overwrite-in-place semantics (`dictSet`, `dictGet`);
* Python's `sep.join(xs)` is `pyJoin sep xs`;
* the external collaborators (user lookup, recommender query, subscription
  store) are fields of an `Env` record; the mail transport is modelled by
  returning the list of dispatched emails;
* the recommender query issued for each subscription is recorded in a trace of
  `QueryCall`s, so that "no query is issued" is observable.
-/

namespace Zeeguu

/-- A transient article returned by the recommender (title, url,
published_time). -/
structure CandidateArticle where
  title : String
  url : String
  published_time : Int
deriving DecidableEq

/-- A `SearchSubscription` row: owning user id, the saved search's keywords,
and the receive_email flag.  (`subscription.search.keywords` is flattened into
the `keywords` field.) -/
structure SearchSubscription where
  user_id : Nat
  keywords : String
  receive_email : Bool
deriving DecidableEq

/-- The external collaborators of the mailer script: the subscription store
(all rows), user lookup (`User.find_by_id(uid).email`), and the recommender
(`article_search_for_user(user, limit, keywords, ...)` with the fixed ranking
configuration). -/
structure Env where
  subscriptions : List SearchSubscription
  userEmail : Nat → String
  articleSearch : Nat → Nat → String → List CandidateArticle

/-- Python's `sep.join(xs)`. -/
def pyJoin (sep : String) : List String → String
  | [] => ""
  | [x] => x
  | x :: y :: rest => x ++ sep ++ pyJoin sep (y :: rest)

/-- Concatenation of a list of strings (used to reason about joins). -/
def concatList : List String → String
  | [] => ""
  | x :: rest => x ++ concatList rest

/-- Python `dict` lookup (first matching key; keys are unique in an
insertion-ordered dict). -/
def dictGet {α : Type} (m : List (String × α)) (k : String) : Option α :=
  match m with
  | [] => none
  | (k2, v) :: rest => if k2 = k then some v else dictGet rest k

/-- Python `dict` assignment `m[k] = v`: overwrite in place when the key
exists, append otherwise (insertion order preserved). -/
def dictSet {α : Type} (m : List (String × α)) (k : String) (v : α) :
    List (String × α) :=
  match m with
  | [] => [(k, v)]
  | (k2, v2) :: rest =>
    if k2 = k then (k2, v) :: rest else (k2, v2) :: dictSet rest k v

/-- The per-keyword list of `(title, url)` pairs. -/
abbrev DigestEntry := List (String × String)

/-- One user's digest: keyword ↦ entry, in insertion order. -/
abbrev UserDigest := List (String × DigestEntry)

/-- The per-run aggregation: user email ↦ digest, in insertion order. -/
abbrev DigestMap := List (String × UserDigest)

/-- The notice sentence of the email body, pluralized on the number of
keywords (`len(new_content_dict) > 1`). -/
def noticeLine (n : Nat) : String :=
  "There are new articles related to your subscribed " ++
    (if n > 1 then "searches" else "search") ++
    ". You can find your subscriptions here: https://www.zeeguu.org/articles/mySearches"

/-- The initial body block built by the first `"\r\n".join` of
`send_mail_new_articles_search`. -/
def introBlock (n : Nat) : String :=
  pyJoin "\r\n" ["Hi there,", " ", noticeLine n, " "]

/-- One article line: `- <a href="{url}">{t}</a>`. -/
def articleLine (p : String × String) : String :=
  "- <a href=\"" ++ p.2 ++ "\">" ++ p.1 ++ "</a>"

/-- One keyword's section of the body, as appended by the loop:
`"\r\n".join([" ", f"Search: '{keyword}': "] + lines) + "\n"`. -/
def keywordSection (keyword : String) (titles : DigestEntry) : String :=
  pyJoin "\r\n" ([" ", "Search: \x27" ++ keyword ++ "\x27: "] ++
    titles.map articleLine) ++ "\n"

/-- The closing signature block. -/
def closingBlock : String :=
  pyJoin "\r\n" [" ", " ", "Cheers,", "The Zeeguu Team"]

/-- The full email body built by `send_mail_new_articles_search`. -/
def renderBody (new_content_dict : UserDigest) : String :=
  new_content_dict.foldl (fun b kv => b ++ keywordSection kv.1 kv.2)
    (introBlock new_content_dict.length) ++ closingBlock

/-- The subject line:
`f"New articles for {"'" + "','".join(new_content_dict.keys()) + "'"}"`. -/
def renderSubject (new_content_dict : UserDigest) : String :=
  "New articles for " ++
    ("\x27" ++ pyJoin "\x27,\x27" (new_content_dict.map Prod.fst) ++ "\x27")

/-- One dispatched email (`ZeeguuMailer(subject, body, to_email)` + `send`). -/
structure SentEmail where
  subject : String
  body : String
  to_email : String
deriving DecidableEq

/-- `send_mail_new_articles_search`: renders and dispatches one email. -/
def send_mail_new_articles_search (to_email : String)
    (new_content_dict : UserDigest) : SentEmail :=
  ⟨renderSubject new_content_dict, renderBody new_content_dict, to_email⟩

/-- A recommender query as issued by the loop body:
`article_search_for_user(user, 3, subscription.search.keywords, ...)`. -/
structure QueryCall where
  user_id : Nat
  limit : Nat
  keywords : String
deriving DecidableEq

/-- `datetime.timedelta(days=1)` in seconds. -/
def oneDay : Int := 86400

/-- The list comprehension filtering candidates:
`[a for a in articles if a.published_time > previous_day_datetime]`. -/
def newArticlesFound (articles : List CandidateArticle)
    (previous_day_datetime : Int) : List CandidateArticle :=
  articles.filter (fun a => decide (a.published_time > previous_day_datetime))

/-- The main loop of `send_subscription_emails`, one step per subscription:
query the recommender (recording the query in the trace), filter by recency,
and on a non-empty result write the entry into the per-user dict. -/
def runSubscriptions (env : Env) (previous_day_datetime : Int) :
    List SearchSubscription → DigestMap × List QueryCall →
      DigestMap × List QueryCall
  | [], st => st
  | sub :: rest, (acc, qs) =>
    let email := env.userEmail sub.user_id
    let articles := env.articleSearch sub.user_id 3 sub.keywords
    let found := newArticlesFound articles previous_day_datetime
    let acc2 :=
      if found.isEmpty then acc
      else
        dictSet acc email
          (dictSet ((dictGet acc email).getD []) sub.keywords
            (found.map (fun a => (a.title, a.url))))
    runSubscriptions env previous_day_datetime rest
      (acc2, qs ++ [⟨sub.user_id, 3, sub.keywords⟩])

/-- The `user_subscriptions` dict at the end of the loop. -/
def buildUserSubscriptions (env : Env) (current_datetime : Int) : DigestMap :=
  (runSubscriptions env (current_datetime - oneDay)
    (env.subscriptions.filter (fun s => s.receive_email)) ([], [])).1

/-- The recommender queries issued during the run, in order. -/
def queryTrace (env : Env) (current_datetime : Int) : List QueryCall :=
  (runSubscriptions env (current_datetime - oneDay)
    (env.subscriptions.filter (fun s => s.receive_email)) ([], [])).2

/-- `send_subscription_emails`: build the per-user dict, then dispatch one
email per entry of the final dict. -/
def send_subscription_emails (env : Env) (current_datetime : Int) :
    List SentEmail :=
  (buildUserSubscriptions env current_datetime).map
    (fun kv => send_mail_new_articles_search kv.1 kv.2)

/-! ## The exercise-outcome endpoint (`report_exercise_outcome`) -/

/-- The Python exceptions this endpoint can meet. -/
inductive PyErr where
  | typeError
  | valueError
  | attributeError
  | runtimeError
deriving DecidableEq

/-- The request form: `request.form.get(key)` is `none` when the field is
absent from the POST body. -/
structure ExerciseForm where
  outcome : Option String
  source : Option String
  solving_speed : Option String
  bookmark_id : Option String
  other_feedback : Option String
  session_id : Option String
deriving DecidableEq

/-- The value bound to `solving_speed` after the `isdigit` check: either the
original form string, or the integer `0` it was replaced by. -/
inductive SpeedVal where
  | fromForm (s : String)
  | intZero
deriving DecidableEq

/-- Python `str.isdigit()` (ASCII digits): non-empty and all digits. -/
def pyIsDigit (s : String) : Bool :=
  !s.isEmpty && s.data.all Char.isDigit

/-- Decimal value of a digit list. -/
def digitsVal (l : List Char) : Nat :=
  l.foldl (fun acc c => acc * 10 + (c.toNat - 48)) 0

/-- Python `str.strip()` on a character list: drop whitespace at both
ends. -/
def pyStrip (l : List Char) : List Char :=
  ((l.dropWhile Char.isWhitespace).reverse.dropWhile Char.isWhitespace).reverse

/-- Python `int(s)` on a string: strip whitespace, optional sign, digits;
`none` models the `ValueError` raised otherwise. -/
def pyIntParse (s : String) : Option Int :=
  let t := pyStrip s.data
  let core := if t.head? = some '-' ∨ t.head? = some '+' then t.tail else t
  if core.isEmpty || !core.all Char.isDigit then none
  else if t.head? = some '-' then some (-(digitsVal core : Int))
  else some ((digitsVal core : Int))

/-- The arguments of the `bookmark.report_exercise_outcome(...)` call, the
observable effect of the happy path (with the bookmark id that
`Bookmark.find` receives). -/
structure RecordedCall where
  source : Option String
  outcome : String
  solving_speed : SpeedVal
  session_id : Int
  other_feedback : Option String
  bookmark_id : Option String
deriving DecidableEq

/-- What the route handler produces: an HTTP response string, or an exception
that propagates out of the handler. -/
inductive HandlerResult where
  | returned (s : String)
  | uncaught (e : PyErr)
deriving DecidableEq

/-- The `report_exercise_outcome` route handler.  `reportFn` stands for the
`Bookmark.find` + `bookmark.report_exercise_outcome` pair inside the `try:`
block; the second component records the call made to it, when one is made.
The `int(...)` conversion of `session_id` and the `solving_speed.isdigit()`
check both run before the `try:` block, so their exceptions propagate. -/
def report_exercise_outcome (form : ExerciseForm)
    (reportFn : RecordedCall → Except PyErr Unit) :
    HandlerResult × Option RecordedCall :=
  let outcome := form.outcome.getD ""
  match form.session_id with
  | none => (HandlerResult.uncaught PyErr.typeError, none)
  | some sidStr =>
    match pyIntParse sidStr with
    | none => (HandlerResult.uncaught PyErr.valueError, none)
    | some session_id =>
      match form.solving_speed with
      | none => (HandlerResult.uncaught PyErr.attributeError, none)
      | some sp =>
        let solving_speed :=
          if pyIsDigit sp then SpeedVal.fromForm sp else SpeedVal.intZero
        let call : RecordedCall :=
          ⟨form.source, outcome, solving_speed, session_id,
            form.other_feedback, form.bookmark_id⟩
        match reportFn call with
        | Except.ok _ => (HandlerResult.returned "OK", some call)
        | Except.error _ => (HandlerResult.returned "FAIL", some call)

/-- The pre-`try:` statements succeed: `session_id` is present and parses as
an int, and `solving_speed` is present. -/
def preTryOk (form : ExerciseForm) : Bool :=
  (match form.session_id with
   | none => false
   | some s => (pyIntParse s).isSome) && form.solving_speed.isSome

/-! ## Helper lemmas -/

theorem pyJoin_cons (sep x : String) (l : List String) :
    pyJoin sep (x :: l) = x ++ concatList (l.map (fun y => sep ++ y)) := by
  induction l generalizing x with
  | nil => simp [pyJoin, concatList]
  | cons y rest ih => simp [pyJoin, concatList, ih y, String.append_assoc]

theorem concatList_cons (x : String) (l : List String) :
    concatList (x :: l) = x ++ concatList l := rfl

theorem concatList_append (l1 l2 : List String) :
    concatList (l1 ++ l2) = concatList l1 ++ concatList l2 := by
  induction l1 with
  | nil => simp [concatList]
  | cons x rest ih => simp [concatList, ih, String.append_assoc]

/-- One keyword section, seen as a single string concatenation. -/
def sectionOf (kv : String × DigestEntry) : String :=
  keywordSection kv.1 kv.2

theorem foldl_sections (d : UserDigest) (init : String) :
    d.foldl (fun b kv => b ++ keywordSection kv.1 kv.2) init =
      init ++ concatList (d.map sectionOf) := by
  induction d generalizing init with
  | nil => simp [concatList]
  | cons kv rest ih => simp [concatList, ih, String.append_assoc, sectionOf]

theorem renderBody_eq (d : UserDigest) :
    renderBody d =
      introBlock d.length ++ (concatList (d.map sectionOf) ++ closingBlock) := by
  simp [renderBody, foldl_sections, String.append_assoc]

theorem dictSet_cons_self {α : Type} (k2 : String) (v2 : α)
    (rest : List (String × α)) (v : α) :
    dictSet ((k2, v2) :: rest) k2 v = (k2, v) :: rest := by
  simp [dictSet]

theorem dictSet_cons_ne {α : Type} (k2 : String) (v2 : α)
    (rest : List (String × α)) (k : String) (v : α) (h : k2 ≠ k) :
    dictSet ((k2, v2) :: rest) k v = (k2, v2) :: dictSet rest k v := by
  simp [dictSet, h]

theorem mem_keys_dictSet {α : Type} (m : List (String × α)) (k e : String)
    (v : α) :
    e ∈ (dictSet m k v).map Prod.fst ↔ e ∈ m.map Prod.fst ∨ e = k := by
  induction m with
  | nil => simp [dictSet]
  | cons p rest ih =>
    obtain ⟨k2, v2⟩ := p
    by_cases h : k2 = k
    · subst h
      rw [dictSet_cons_self]
      simp only [List.map_cons, List.mem_cons]
      tauto
    · rw [dictSet_cons_ne _ _ _ _ _ h]
      simp only [List.map_cons, List.mem_cons, ih]
      tauto

theorem nodup_keys_dictSet {α : Type} (m : List (String × α)) (k : String)
    (v : α) (h : (m.map Prod.fst).Nodup) :
    ((dictSet m k v).map Prod.fst).Nodup := by
  induction m with
  | nil => simp [dictSet]
  | cons p rest ih =>
    obtain ⟨k2, v2⟩ := p
    simp only [List.map_cons, List.nodup_cons] at h
    by_cases hk : k2 = k
    · subst hk
      rw [dictSet_cons_self]
      simp only [List.map_cons, List.nodup_cons]
      exact ⟨h.1, h.2⟩
    · rw [dictSet_cons_ne _ _ _ _ _ hk]
      simp only [List.map_cons, List.nodup_cons]
      refine ⟨fun hc => ?_, ih h.2⟩
      rcases (mem_keys_dictSet rest k k2 v).mp hc with h1 | h1
      · exact h.1 h1
      · exact hk h1

theorem value_mem_dictSet {α : Type} (m : List (String × α)) (k : String)
    (v : α) (q : String × α) (hq : q ∈ dictSet m k v) :
    q.2 = v ∨ q ∈ m := by
  induction m with
  | nil =>
    simp only [dictSet, List.mem_singleton] at hq
    subst hq; exact Or.inl rfl
  | cons p rest ih =>
    obtain ⟨k2, v2⟩ := p
    by_cases h : k2 = k
    · subst h
      rw [dictSet_cons_self] at hq
      rcases List.mem_cons.mp hq with hq | hq
      · subst hq; exact Or.inl rfl
      · exact Or.inr (List.mem_cons_of_mem _ hq)
    · rw [dictSet_cons_ne _ _ _ _ _ h] at hq
      rcases List.mem_cons.mp hq with hq | hq
      · exact Or.inr (by simp [hq])
      · rcases ih hq with h1 | h1
        · exact Or.inl h1
        · exact Or.inr (List.mem_cons_of_mem _ h1)

theorem dictGet_dictSet {α : Type} (m : List (String × α)) (k q : String)
    (v : α) :
    dictGet (dictSet m k v) q = if k = q then some v else dictGet m q := by
  induction m with
  | nil => simp [dictSet, dictGet]
  | cons p rest ih =>
    obtain ⟨k2, v2⟩ := p
    by_cases h : k2 = k
    · subst h
      by_cases hq : k2 = q
      · subst hq; simp [dictSet, dictGet]
      · simp [dictSet, dictGet, hq]
    · by_cases hq : k2 = q
      · subst hq
        have : ¬k = k2 := fun hc => h hc.symm
        simp [dictSet, dictGet, h, this]
      · simp [dictSet, dictGet, h, hq, ih]

theorem dictGet_mem {α : Type} (m : List (String × α)) (k : String) (v : α)
    (h : dictGet m k = some v) : (k, v) ∈ m := by
  induction m with
  | nil => simp [dictGet] at h
  | cons p rest ih =>
    obtain ⟨k2, v2⟩ := p
    by_cases hk : k2 = k
    · subst hk
      simp only [dictGet, if_true, eq_self_iff_true, Option.some.injEq] at h
      subst h; exact List.mem_cons_self _ _
    · simp only [dictGet, if_neg hk] at h
      exact List.mem_cons_of_mem _ (ih h)

/-- The trace of recommender queries the loop issues: exactly one per
subscription of the processed list, in order. -/
theorem runSubscriptions_trace (env : Env) (cutoff : Int) :
    ∀ (l : List SearchSubscription) (acc : DigestMap) (qs : List QueryCall),
      (runSubscriptions env cutoff l (acc, qs)).2 =
        qs ++ l.map (fun s => (⟨s.user_id, 3, s.keywords⟩ : QueryCall)) := by
  intro l
  induction l with
  | nil => intro acc qs; simp [runSubscriptions]
  | cons sub rest ih =>
    intro acc qs
    simp only [runSubscriptions, ih, List.map_cons]
    simp

/-- Every key of the dict built by the loop is either a key of the starting
accumulator or the email of some processed subscription whose recency filter
returned a non-empty list. -/
theorem mem_keys_runSubscriptions (env : Env) (cutoff : Int) :
    ∀ (l : List SearchSubscription) (acc : DigestMap) (qs : List QueryCall)
      (e : String),
      e ∈ ((runSubscriptions env cutoff l (acc, qs)).1.map Prod.fst) →
      e ∈ acc.map Prod.fst ∨
        ∃ sub ∈ l, env.userEmail sub.user_id = e ∧
          newArticlesFound (env.articleSearch sub.user_id 3 sub.keywords)
            cutoff ≠ [] := by
  intro l
  induction l with
  | nil => intro acc qs e h; exact Or.inl h
  | cons sub rest ih =>
    intro acc qs e h
    simp only [runSubscriptions] at h
    by_cases hf :
        (newArticlesFound (env.articleSearch sub.user_id 3 sub.keywords)
          cutoff).isEmpty
    · rw [if_pos hf] at h
      rcases ih _ _ _ h with h1 | ⟨s, hs, h2⟩
      · exact Or.inl h1
      · exact Or.inr ⟨s, List.mem_cons_of_mem _ hs, h2⟩
    · rw [if_neg hf] at h
      rcases ih _ _ _ h with h1 | ⟨s, hs, h2⟩
      · rcases (mem_keys_dictSet acc _ e _).mp h1 with h2 | h2
        · exact Or.inl h2
        · refine Or.inr ⟨sub, List.mem_cons_self _ _, h2.symm, ?_⟩
          simpa [List.isEmpty_iff] using hf
      · exact Or.inr ⟨s, List.mem_cons_of_mem _ hs, h2⟩

/-- Each dispatched email's recipient is the corresponding key of the final
dict. -/
theorem emails_map_to_email (env : Env) (current_datetime : Int) :
    (send_subscription_emails env current_datetime).map SentEmail.to_email =
      (buildUserSubscriptions env current_datetime).map Prod.fst := by
  simp [send_subscription_emails, send_mail_new_articles_search,
    List.map_map, Function.comp]

/-! ## Claim theorems -/

/-- Claim C1: a candidate article is kept by the recency filter if and only
if its published_time is strictly greater than the cutoff (run start time
minus 24 hours); candidates at or before the cutoff are excluded, and the
kept candidates form an order-preserving subsequence. -/
theorem recency_filter_strict_cutoff (articles : List CandidateArticle)
    (current_datetime : Int) (a : CandidateArticle) (ha : a ∈ articles) :
    (a ∈ newArticlesFound articles (current_datetime - oneDay) ↔
      current_datetime - oneDay < a.published_time) ∧
    (newArticlesFound articles (current_datetime - oneDay)).Sublist articles := by
  constructor
  · simp [newArticlesFound, List.mem_filter, ha]
  · exact List.filter_sublist _

/-- Witness for C1 at a concrete candidate list and run time. -/
theorem recency_filter_strict_cutoff_witness :
    (⟨"t", "u", 100⟩ : CandidateArticle) ∈
        [(⟨"t", "u", 100⟩ : CandidateArticle)] ∧
    (((⟨"t", "u", 100⟩ : CandidateArticle) ∈
        newArticlesFound [⟨"t", "u", 100⟩] ((90 : Int) - oneDay) ↔
      (90 : Int) - oneDay < (100 : Int)) ∧
    (newArticlesFound [(⟨"t", "u", 100⟩ : CandidateArticle)]
      ((90 : Int) - oneDay)).Sublist [⟨"t", "u", 100⟩]) :=
  ⟨by decide, recency_filter_strict_cutoff [⟨"t", "u", 100⟩] 90 _ (by decide)⟩

/-- Claim C2: every dispatched email belongs to a user with at least one
email-subscribed search whose recency filter produced a non-empty result;
a user with zero qualifying articles across all subscriptions gets no email. -/
theorem dispatched_email_has_qualifying_subscription (env : Env)
    (current_datetime : Int) (m : SentEmail)
    (hm : m ∈ send_subscription_emails env current_datetime) :
    ∃ sub ∈ env.subscriptions, sub.receive_email = true ∧
      env.userEmail sub.user_id = m.to_email ∧
      newArticlesFound (env.articleSearch sub.user_id 3 sub.keywords)
        (current_datetime - oneDay) ≠ [] := by
  have hkey : m.to_email ∈
      (buildUserSubscriptions env current_datetime).map Prod.fst := by
    rw [← emails_map_to_email env current_datetime]
    exact List.mem_map_of_mem _ hm
  rcases mem_keys_runSubscriptions env (current_datetime - oneDay) _ _ _ _
      hkey with h1 | ⟨sub, hsub, h2, h3⟩
  · simp at h1
  · rcases List.mem_filter.mp hsub with ⟨hmem, hre⟩
    exact ⟨sub, hmem, by simpa using hre, h2, h3⟩

/-- A concrete one-user environment: one email-subscribed search for "cats"
whose recommender result contains one fresh article. -/
def envA : Env :=
  ⟨[⟨1, "cats", true⟩], fun _ => "ada@example.org",
   fun _ _ _ => [⟨"Fresh cats", "http://a/1", 999000⟩]⟩

/-- The single email dispatched by `envA`'s run. -/
def mailA : SentEmail :=
  send_mail_new_articles_search "ada@example.org"
    [("cats", [("Fresh cats", "http://a/1")])]

set_option maxRecDepth 10000 in
/-- Witness for C2: the email dispatched in the concrete run `envA`. -/
theorem dispatched_email_has_qualifying_subscription_witness :
    mailA ∈ send_subscription_emails envA 1000000 ∧
    ∃ sub ∈ envA.subscriptions, sub.receive_email = true ∧
      envA.userEmail sub.user_id = mailA.to_email ∧
      newArticlesFound (envA.articleSearch sub.user_id 3 sub.keywords)
        ((1000000 : Int) - oneDay) ≠ [] :=
  ⟨by decide,
   dispatched_email_has_qualifying_subscription envA 1000000 mailA (by decide)⟩

/-- `runSubscriptions` reads only the user-lookup and recommender fields of
the environment, never the subscription store field. -/
theorem runSubscriptions_env_congr (env1 env2 : Env) (cutoff : Int)
    (hU : env1.userEmail = env2.userEmail)
    (hA : env1.articleSearch = env2.articleSearch) :
    ∀ (l : List SearchSubscription) (st : DigestMap × List QueryCall),
      runSubscriptions env1 cutoff l st = runSubscriptions env2 cutoff l st := by
  intro l
  induction l with
  | nil => intro st; rfl
  | cons sub rest ih =>
    intro st
    obtain ⟨acc, qs⟩ := st
    simp only [runSubscriptions, hU, hA, ih]

/-- Claim C3: subscriptions with receive_email = false contribute nothing to
the run: the query trace holds exactly one recommender query per
email-subscribed subscription (so none for the others), and restricting the
subscription store to the email-subscribed rows leaves every dispatched
email unchanged. -/
theorem email_disabled_subscriptions_contribute_nothing (env : Env)
    (current_datetime : Int) :
    queryTrace env current_datetime =
      (env.subscriptions.filter (fun s => s.receive_email)).map
        (fun s => (⟨s.user_id, 3, s.keywords⟩ : QueryCall)) ∧
    send_subscription_emails
        (⟨env.subscriptions.filter (fun s => s.receive_email), env.userEmail,
          env.articleSearch⟩ : Env) current_datetime =
      send_subscription_emails env current_datetime := by
  constructor
  · simp [queryTrace, runSubscriptions_trace]
  · have hc := runSubscriptions_env_congr
      (⟨env.subscriptions.filter (fun s => s.receive_email), env.userEmail,
        env.articleSearch⟩ : Env) env (current_datetime - oneDay) rfl rfl
    simp only [send_subscription_emails, buildUserSubscriptions,
      List.filter_filter]
    rw [hc]
    simp [Bool.and_self]

/-- Claim C4: the rendered email preserves order — keyword sections appear in
the digest's insertion order, article lines appear in the filtered candidate
order, and for a digest holding "cats" before "dogs" the subject lists
`'cats','dogs'`. -/
theorem rendered_email_preserves_order (d1 d2 d3 : UserDigest)
    (kcats kdogs : String) (ec ed : DigestEntry) (t1 t2 t3 : DigestEntry)
    (a b : String × String) :
    (∃ pre mid post,
      renderBody (d1 ++ (kcats, ec) :: d2 ++ (kdogs, ed) :: d3) =
        pre ++ (keywordSection kcats ec ++
          (mid ++ (keywordSection kdogs ed ++ post)))) ∧
    (∃ pre mid post,
      keywordSection kcats (t1 ++ a :: t2 ++ b :: t3) =
        pre ++ (articleLine a ++ (mid ++ (articleLine b ++ post)))) ∧
    renderSubject [("cats", ec), ("dogs", ed)] =
      "New articles for \x27cats\x27,\x27dogs\x27" := by
  refine ⟨?_, ?_, ?_⟩
  · refine ⟨introBlock (d1 ++ (kcats, ec) :: d2 ++ (kdogs, ed) :: d3).length ++
      concatList (d1.map sectionOf), concatList (d2.map sectionOf),
      concatList (d3.map sectionOf) ++ closingBlock, ?_⟩
    rw [renderBody_eq]
    simp [List.map_append, concatList_append, concatList, sectionOf,
      String.append_assoc]
  · refine ⟨" " ++ ("\r\n" ++ (("Search: \x27" ++ kcats ++ "\x27: ") ++
      (concatList ((t1.map articleLine).map (fun y => "\r\n" ++ y)) ++
        "\r\n"))),
      concatList ((t2.map articleLine).map (fun y => "\r\n" ++ y)) ++ "\r\n",
      concatList ((t3.map articleLine).map (fun y => "\r\n" ++ y)) ++ "\n",
      ?_⟩
    simp [keywordSection, pyJoin_cons, List.map_append, concatList_append,
      concatList, String.append_assoc]
  · rfl

/-- Well-formedness of the aggregation dict: user keys are distinct and each
stored digest has distinct keyword keys. -/
def digestWF (m : DigestMap) : Prop :=
  (m.map Prod.fst).Nodup ∧ ∀ p ∈ m, (p.2.map Prod.fst).Nodup

theorem digestWF_runSubscriptions (env : Env) (cutoff : Int) :
    ∀ (l : List SearchSubscription) (acc : DigestMap) (qs : List QueryCall),
      digestWF acc → digestWF (runSubscriptions env cutoff l (acc, qs)).1 := by
  intro l
  induction l with
  | nil => intro acc qs h; exact h
  | cons sub rest ih =>
    intro acc qs h
    simp only [runSubscriptions]
    by_cases hf :
        (newArticlesFound (env.articleSearch sub.user_id 3 sub.keywords)
          cutoff).isEmpty
    · rw [if_pos hf]; exact ih _ _ h
    · rw [if_neg hf]
      apply ih
      constructor
      · exact nodup_keys_dictSet _ _ _ h.1
      · intro p hp
        rcases value_mem_dictSet _ _ _ _ hp with h1 | h1
        · rw [h1]
          apply nodup_keys_dictSet
          cases hg : dictGet acc (env.userEmail sub.user_id) with
          | none => simp
          | some dd => simpa [hg] using h.2 _ (dictGet_mem _ _ _ hg)
        · exact h.2 _ h1

/-- Two-level lookup into the aggregation dict: the stored entry for a user
email and a keyword. -/
def dictGet2 (m : DigestMap) (e k : String) : Option DigestEntry :=
  match dictGet m e with
  | none => none
  | some d => dictGet d k

/-- The write a subscription performs in a run, when its recency filter
returns a non-empty list: (owner's email, keyword, list of (title, url)). -/
def writesOf (env : Env) (cutoff : Int) (sub : SearchSubscription) :
    Option (String × String × DigestEntry) :=
  let found :=
    newArticlesFound (env.articleSearch sub.user_id 3 sub.keywords) cutoff
  if found.isEmpty then none
  else some (env.userEmail sub.user_id, sub.keywords,
    found.map (fun a => (a.title, a.url)))

/-- The last write for a given (email, keyword) among the processed
subscriptions, folded over a starting value. -/
def lastWriteFrom (env : Env) (cutoff : Int) (e k : String) :
    List SearchSubscription → Option DigestEntry → Option DigestEntry
  | [], o => o
  | sub :: rest, o =>
    lastWriteFrom env cutoff e k rest
      (match writesOf env cutoff sub with
       | some w => if w.1 = e ∧ w.2.1 = k then some w.2.2 else o
       | none => o)

/-- The last write for a given (email, keyword) in the whole run ("last
write wins"). -/
def lastWrite (env : Env) (cutoff : Int) (l : List SearchSubscription)
    (e k : String) : Option DigestEntry :=
  lastWriteFrom env cutoff e k l none

theorem dictGet2_step (acc : DigestMap) (email kw : String)
    (val : DigestEntry) (e k : String) :
    dictGet2 (dictSet acc email
        (dictSet ((dictGet acc email).getD []) kw val)) e k =
      if email = e ∧ kw = k then some val else dictGet2 acc e k := by
  by_cases hE : email = e
  · subst hE
    by_cases hK : kw = k
    · subst hK
      simp [dictGet2, dictGet_dictSet]
    · cases hg : dictGet acc email with
      | none => simp [dictGet2, dictGet, dictGet_dictSet, hK, hg]
      | some dd => simp [dictGet2, dictGet_dictSet, hK, hg]
  · have h2 : ¬(email = e ∧ kw = k) := fun hc => hE hc.1
    simp [dictGet2, dictGet_dictSet, hE, h2]

theorem dictGet2_runSubscriptions (env : Env) (cutoff : Int) (e k : String) :
    ∀ (l : List SearchSubscription) (acc : DigestMap) (qs : List QueryCall),
      dictGet2 (runSubscriptions env cutoff l (acc, qs)).1 e k =
        lastWriteFrom env cutoff e k l (dictGet2 acc e k) := by
  intro l
  induction l with
  | nil => intro acc qs; rfl
  | cons sub rest ih =>
    intro acc qs
    simp only [runSubscriptions, lastWriteFrom]
    by_cases hf :
        (newArticlesFound (env.articleSearch sub.user_id 3 sub.keywords)
          cutoff).isEmpty
    · rw [if_pos hf, ih]
      congr 1
      simp [writesOf, hf]
    · rw [if_neg hf, ih]
      congr 1
      rw [dictGet2_step]
      simp [writesOf, hf]

/-- Claim C5: the aggregation dict has each user email at most once as a key
and each keyword at most once per user; the stored entry for an (email,
keyword) pair is the one of the last subscription that wrote it ("last write
wins"); and exactly one dispatch is made per key of the final dict. -/
theorem digest_aggregation_invariants (env : Env) (current_datetime : Int)
    (e k : String) :
    ((buildUserSubscriptions env current_datetime).map Prod.fst).Nodup ∧
    (∀ p ∈ buildUserSubscriptions env current_datetime,
      (p.2.map Prod.fst).Nodup) ∧
    dictGet2 (buildUserSubscriptions env current_datetime) e k =
      lastWrite env (current_datetime - oneDay)
        (env.subscriptions.filter (fun s => s.receive_email)) e k ∧
    (send_subscription_emails env current_datetime).map SentEmail.to_email =
      (buildUserSubscriptions env current_datetime).map Prod.fst := by
  have hwf := digestWF_runSubscriptions env (current_datetime - oneDay)
    (env.subscriptions.filter (fun s => s.receive_email)) [] []
    ⟨List.nodup_nil, by simp⟩
  exact ⟨hwf.1, hwf.2,
    dictGet2_runSubscriptions env (current_datetime - oneDay) e k
      (env.subscriptions.filter (fun s => s.receive_email)) [] [],
    emails_map_to_email env current_datetime⟩

/-- The fixed body text preceding the pluralized word of the notice line. -/
def noticeLead : String :=
  "Hi there,\r\n \r\nThere are new articles related to your subscribed "

/-- The fixed body text following the pluralized word, up to the end of the
intro block. -/
def noticeTail : String :=
  ". You can find your subscriptions here: https://www.zeeguu.org/articles/mySearches\r\n "

/-- Claim C6: for a non-empty digest the notice line of the body uses the
singular "search" when the digest has exactly one keyword and the plural
"searches" when it has two or more (`len(new_content_dict) > 1`). -/
theorem notice_pluralization (d : UserDigest) (h : d ≠ []) :
    ∃ rest, renderBody d =
      noticeLead ++ ((if 1 < d.length then "searches" else "search") ++
        (noticeTail ++ rest)) := by
  refine ⟨concatList (d.map sectionOf) ++ closingBlock, ?_⟩
  rw [renderBody_eq]
  simp only [introBlock, pyJoin, noticeLine]
  simp [String.append_assoc]
  rw [show noticeTail =
    (". You can find your subscriptions here: https://www.zeeguu.org/articles/mySearches\r\n " :
      String) from by decide]
  rw [show noticeLead = "Hi there,\r\n" ++
    (" \r\n" ++ "There are new articles related to your subscribed ")
    from by decide]
  rw [String.append_assoc, String.append_assoc]

/-- Witness for C6: a one-keyword digest, whose notice uses the singular. -/
theorem notice_pluralization_witness :
    ([(("cats" : String), ([] : DigestEntry))] : UserDigest) ≠ [] ∧
    ∃ rest, renderBody [(("cats" : String), ([] : DigestEntry))] =
      noticeLead ++
        ((if 1 < ([(("cats" : String), ([] : DigestEntry))] : UserDigest).length
          then "searches" else "search") ++ (noticeTail ++ rest)) :=
  ⟨by decide, notice_pluralization _ (by decide)⟩

/-- Modelled from the spec: the section header line `Search: '<keyword>':`. -/
def specHeader (keyword : String) : String :=
  "Search: \x27" ++ keyword ++ "\x27:"

/-- Modelled from the spec: one article line, the HTML anchor
`- <a href="URL">TITLE</a>`. -/
def specArticleLine (title url : String) : String :=
  "- <a href=\"" ++ url ++ "\">" ++ title ++ "</a>"

/-- Modelled from the spec: the lines of one section's articles — one line
per article of the entry, in order. -/
def specArticleBlock (ts : DigestEntry) : String :=
  concatList (ts.map (fun p => "\r\n" ++ specArticleLine p.1 p.2))

/-- Modelled from the spec: the subject `New articles for '<kw1>','<kw2>',...`
listing every keyword of the mapping, with no deduplication or truncation. -/
def specSubject (keywords : List String) : String :=
  "New articles for " ++ ("\x27" ++ pyJoin "\x27,\x27" keywords ++ "\x27")

/-- The code's header text is the spec's header followed by one blank. -/
theorem specHeader_append_blank (k : String) :
    specHeader k ++ " " = "Search: \x27" ++ (k ++ "\x27: ") := by
  unfold specHeader
  rw [String.append_assoc,
    show ("\x27:" : String) ++ " " = "\x27: " from by decide,
    String.append_assoc]

/-- Each rendered keyword section is the spec's template: the header line
(plus the trailing blank the code emits) followed by one anchor line per
article. -/
theorem keywordSection_spec (k : String) (ts : DigestEntry) :
    keywordSection k ts =
      " " ++ ("\r\n" ++ ((specHeader k ++ " ") ++
        (specArticleBlock ts ++ "\n"))) := by
  rw [specHeader_append_blank]
  simp [keywordSection, pyJoin_cons, concatList_cons, specArticleBlock,
    articleLine, specArticleLine, List.map_map, Function.comp_def,
    String.append_assoc]

/-- Claim C7: the rendered email matches the spec's template — the subject is
`New articles for '<kw1>','<kw2>',...` over every keyword of the mapping, and
for each (keyword, entry) of the mapping the body holds, on its own line, the
header `Search: '<keyword>':` followed by one line per article formatted as
`- <a href="URL">TITLE</a>`. -/
theorem email_template_format (d : UserDigest) (p : String × DigestEntry)
    (hp : p ∈ d) :
    renderSubject d = specSubject (d.map Prod.fst) ∧
    ∃ pre rest, renderBody d =
      pre ++ ("\r\n" ++ (specHeader p.1 ++
        (" " ++ (specArticleBlock p.2 ++ rest)))) := by
  refine ⟨rfl, ?_⟩
  obtain ⟨l1, l2, rfl⟩ := List.append_of_mem hp
  refine ⟨introBlock (l1 ++ p :: l2).length ++
      (concatList (l1.map sectionOf) ++ " "),
    "\n" ++ (concatList (l2.map sectionOf) ++ closingBlock), ?_⟩
  rw [renderBody_eq]
  simp [List.map_append, concatList_append, concatList, sectionOf,
    keywordSection_spec, String.append_assoc]

set_option maxHeartbeats 1000000 in
set_option maxRecDepth 10000 in
/-- Witness for C7: a digest with the single keyword "cats" and one
article. -/
theorem email_template_format_witness :
    ((("cats" : String), [(("t1" : String), ("u1" : String))]) ∈
      ([("cats", [("t1", "u1")])] : UserDigest)) ∧
    (renderSubject [("cats", [("t1", "u1")])] = specSubject ["cats"] ∧
      ∃ pre rest, renderBody [("cats", [("t1", "u1")])] =
        pre ++ ("\r\n" ++ (specHeader "cats" ++
          (" " ++ (specArticleBlock [("t1", "u1")] ++ rest))))) :=
  ⟨by decide,
   email_template_format [("cats", [("t1", "u1")])]
     ("cats", [("t1", "u1")]) (by decide)⟩

/-- A request whose `session_id` field holds a non-numeric string: the
`int(request.form.get("session_id"))` conversion raises before the `try:`
block is entered. -/
def badSessionForm : ExerciseForm :=
  ⟨some "Correct", some "app1", some "1200", some "42", none, some "abc"⟩

/-- Counterexample to C8 as stated: on `badSessionForm` the handler neither
returns "FAIL" nor "OK" — the ValueError raised by the `session_id`
conversion, which runs before the `try:` block, propagates uncaught. -/
theorem report_outcome_catches_all_counterexample :
    (report_exercise_outcome badSessionForm (fun _ => Except.ok ())).1 =
      HandlerResult.uncaught PyErr.valueError ∧
    (report_exercise_outcome badSessionForm (fun _ => Except.ok ())).1 ≠
      HandlerResult.returned "FAIL" ∧
    (report_exercise_outcome badSessionForm (fun _ => Except.ok ())).1 ≠
      HandlerResult.returned "OK" := by decide

/-- Claim C8, amended: once the pre-`try:` form parsing succeeds
(`session_id` present and numeric, `solving_speed` present), the handler
always reaches the recording call and catches any error it raises, returning
"FAIL" after logging, and returns "OK" on success — no exception from the
`try:` block propagates.  (Errors raised by the parsing that precedes the
`try:` block do propagate, as the counterexample shows.) -/
theorem report_outcome_try_block_scope (form : ExerciseForm)
    (reportFn : RecordedCall → Except PyErr Unit)
    (h : preTryOk form = true) :
    ∃ call, (report_exercise_outcome form reportFn).2 = some call ∧
      (report_exercise_outcome form reportFn).1 =
        (match reportFn call with
         | Except.ok _ => HandlerResult.returned "OK"
         | Except.error _ => HandlerResult.returned "FAIL") := by
  unfold preTryOk at h
  rcases hsid : form.session_id with _ | s
  · rw [hsid] at h; simp at h
  · rw [hsid] at h
    simp only [Bool.and_eq_true] at h
    obtain ⟨h1, h2⟩ := h
    obtain ⟨n, hp⟩ := Option.isSome_iff_exists.mp h1
    obtain ⟨sp, hsp⟩ := Option.isSome_iff_exists.mp h2
    refine ⟨⟨form.source, form.outcome.getD "",
      (if pyIsDigit sp then SpeedVal.fromForm sp else SpeedVal.intZero),
      n, form.other_feedback, form.bookmark_id⟩, ?_, ?_⟩ <;>
    · simp only [report_exercise_outcome, hsid, hp, hsp]
      cases reportFn ⟨form.source, form.outcome.getD "",
        (if pyIsDigit sp then SpeedVal.fromForm sp else SpeedVal.intZero),
        n, form.other_feedback, form.bookmark_id⟩ <;> rfl

/-- A well-formed request for the happy path of the endpoint. -/
def okForm : ExerciseForm :=
  ⟨some "Correct", some "app1", some "1200", some "42", none, some "7"⟩

/-- Witness for the amended C8: on `okForm` with a succeeding recorder the
handler returns "OK". -/
theorem report_outcome_try_block_scope_witness :
    preTryOk okForm = true ∧
    ∃ call, (report_exercise_outcome okForm (fun _ => Except.ok ())).2 =
        some call ∧
      (report_exercise_outcome okForm (fun _ => Except.ok ())).1 =
        (match (fun _ : RecordedCall => (Except.ok () : Except PyErr Unit))
            call with
         | Except.ok _ => HandlerResult.returned "OK"
         | Except.error _ => HandlerResult.returned "FAIL") :=
  ⟨by decide, report_outcome_try_block_scope okForm (fun _ => Except.ok ())
    (by decide)⟩

/-- An environment where two distinct user records (ids 1 and 2) share one
email address, each owning a "cats" subscription with one fresh article. -/
def sharedEmailEnv : Env :=
  ⟨[⟨1, "cats", true⟩, ⟨2, "cats", true⟩],
   fun _ => "shared@example.org",
   fun uid _ _ =>
     if uid = 1 then [⟨"Cats one", "http://a/1", 999000⟩]
     else [⟨"Cats two", "http://a/2", 999500⟩]⟩

/-- Claim C9: aggregation is keyed by the email string, not user identity —
with two distinct user ids sharing one address, the run builds a single
merged digest under that address, the later user's entry overwrites the
earlier one for the identical keyword, and exactly one email is dispatched
to the address. -/
theorem digest_keyed_by_email_not_user :
    buildUserSubscriptions sharedEmailEnv 1000000 =
      [("shared@example.org", [("cats", [("Cats two", "http://a/2")])])] ∧
    (send_subscription_emails sharedEmailEnv 1000000).map
        SentEmail.to_email = ["shared@example.org"] := by decide

/-- Claim C10: a present, non-empty, non-numeric `solving_speed` form value
is silently replaced by the integer 0 in the recorded call, and the request
still returns "OK" when the recording succeeds. -/
theorem nondigit_solving_speed_replaced_by_zero (form : ExerciseForm)
    (reportFn : RecordedCall → Except PyErr Unit) (sp : String)
    (h1 : form.solving_speed = some sp) (h2 : sp ≠ "")
    (h3 : pyIsDigit sp = false)
    (h4 : ∃ s n, form.session_id = some s ∧ pyIntParse s = some n)
    (h5 : ∀ c, reportFn c = Except.ok ()) :
    ∃ call, (report_exercise_outcome form reportFn).2 = some call ∧
      call.solving_speed = SpeedVal.intZero ∧
      (report_exercise_outcome form reportFn).1 =
        HandlerResult.returned "OK" := by
  obtain ⟨s, n, hs, hn⟩ := h4
  refine ⟨⟨form.source, form.outcome.getD "", SpeedVal.intZero, n,
    form.other_feedback, form.bookmark_id⟩, ?_, rfl, ?_⟩ <;>
  · simp [report_exercise_outcome, hs, hn, h1, h3, h5]

/-- A request whose `solving_speed` is the non-numeric string "-5". -/
def negSpeedForm : ExerciseForm :=
  ⟨some "Correct", some "app1", some "-5", some "42", none, some "7"⟩

/-- Witness for C10: the form value "-5" is replaced by 0 and the request
returns "OK". -/
theorem nondigit_solving_speed_replaced_by_zero_witness :
    negSpeedForm.solving_speed = some "-5" ∧
    ("-5" : String) ≠ "" ∧
    pyIsDigit "-5" = false ∧
    (∃ s n, negSpeedForm.session_id = some s ∧ pyIntParse s = some n) ∧
    (∀ c : RecordedCall,
      (fun _ : RecordedCall => (Except.ok () : Except PyErr Unit)) c =
        Except.ok ()) ∧
    ∃ call, (report_exercise_outcome negSpeedForm
        (fun _ => Except.ok ())).2 = some call ∧
      call.solving_speed = SpeedVal.intZero ∧
      (report_exercise_outcome negSpeedForm (fun _ => Except.ok ())).1 =
        HandlerResult.returned "OK" :=
  ⟨rfl, by decide, by decide, ⟨"7", 7, rfl, by decide⟩, fun _ => rfl,
   nondigit_solving_speed_replaced_by_zero negSpeedForm
     (fun _ => Except.ok ()) "-5" rfl (by decide) (by decide)
     ⟨"7", 7, rfl, by decide⟩ (fun _ => rfl)⟩

end Zeeguu
